import Mathlib

/-! Verification of the `deprecated` package's classic decorator
(`src/deprecated/classic.py`) against its specification.

The Python definitions are shallowly embedded: the configuration object is
the `ClassicAdapter` record, warning emission is modelled by an explicit
event trace, mutation of class attributes by explicit state passing, and
raised exceptions by `Except`. -/

namespace DeprecatedClassic

/-- Python exceptions that the modelled code can raise. -/
inductive PyErr where
  | assertionError
  | warningRaised (category : String) (msg : String)
  | attributeError (attr : String)
  | userError (info : String)
deriving DecidableEq

/-- Observable events of one call to a wrapped entity: delivery of a warning
through `warnings.warn`, and delegation to the wrapped logic. -/
inductive Event where
  | warned (category : String) (msg : String)
  | delegated
deriving DecidableEq

/-- Whether an event is a warning delivery. -/
def Event.isWarned : Event → Bool
  | .warned _ _ => true
  | .delegated => false

/-- Number of warnings delivered in a trace. -/
def countWarned (t : List Event) : Nat :=
  t.countP Event.isWarned

/-- Outcome of one call: the event trace, and the returned value or raised
exception. -/
structure Outcome (α : Type) where
  trace : List Event
  result : Except PyErr α

/-- State of a Python class object: its `__name__`, the value of the
`_deprecated_warning_issued` attribute when present (`none` models an absent
attribute), and whether its `__new__` has been replaced by
`deprecated_new`. -/
structure PyClass where
  name : String
  deprecated_warning_issued : Option Bool
  newReplaced : Bool
deriving DecidableEq

/-- The configuration entity (`ClassicAdapter`, classic.py lines 73-111). -/
structure ClassicAdapter where
  reason : String
  version : String
  action : Option String
  category : String
deriving DecidableEq

/-- `ClassicAdapter.__init__` (classic.py lines 107-110): `self.reason =
reason or ""` and `self.version = version or ""`; the action is stored as
given with no validation; the category defaults to `DeprecationWarning`
(warning categories are modelled by their names).  `none` models an omitted
(or `None`) argument. -/
def ClassicAdapter.init (reason version action category : Option String) : ClassicAdapter :=
  { reason := reason.getD "", version := version.getD "", action := action,
    category := category.getD "DeprecationWarning" }

/-- The adapter built by `ClassicAdapter()` with all defaults. -/
def defaultAdapter : ClassicAdapter :=
  ClassicAdapter.init none none none none

/-- One-pass substitution of the fields `{name}`, `{reason}` and `{version}`,
modelling `str.format` on the format strings built by `get_deprecated_msg`
(replacement values are not rescanned, exactly as in `str.format`). -/
def formatFields : List Char → String → String → String → List Char
  | '{' :: 'n' :: 'a' :: 'm' :: 'e' :: '}' :: rest, n, r, v =>
      n.data ++ formatFields rest n r v
  | '{' :: 'r' :: 'e' :: 'a' :: 's' :: 'o' :: 'n' :: '}' :: rest, n, r, v =>
      r.data ++ formatFields rest n r v
  | '{' :: 'v' :: 'e' :: 'r' :: 's' :: 'i' :: 'o' :: 'n' :: '}' :: rest, n, r, v =>
      v.data ++ formatFields rest n r v
  | c :: rest, n, r, v => c :: formatFields rest n r v
  | [], _, _, _ => []

/-- `ClassicAdapter.get_deprecated_msg` (classic.py lines 113-138).
`wrappedIsClass` models `inspect.isclass(wrapped)` and `wrappedName` models
`wrapped.__name__`; `inst` is `none` when the bound instance is `None`,
otherwise `some b` with `b` modelling `inspect.isclass(instance)`. -/
def ClassicAdapter.get_deprecated_msg (self : ClassicAdapter) (wrappedIsClass : Bool)
    (wrappedName : String) (inst : Option Bool) : String :=
  let fmt : String :=
    match inst with
    | none =>
      if wrappedIsClass then "Call to deprecated class {name}."
      else "Call to deprecated function (or staticmethod) {name}."
    | some instIsClass =>
      if instIsClass then "Call to deprecated class method {name}."
      else "Call to deprecated method {name}."
  let fmt := if self.reason ≠ "" then fmt ++ " ({reason})" else fmt
  let fmt := if self.version ≠ "" then fmt ++ " -- Deprecated since version {version}." else fmt
  String.mk (formatFields fmt.data wrappedName self.reason self.version)

/-- The six action values accepted by `warnings.simplefilter` (the standard
library asserts membership when `simplefilter` is called). -/
def simplefilterActions : List String :=
  ["error", "ignore", "always", "default", "module", "once"]

/-- The warning-emission block shared by the wrapper bodies (classic.py lines
155-161, 183-189 and 192-198).  With a truthy `action`,
`warnings.simplefilter(action, category)` runs inside
`warnings.catch_warnings()`: `simplefilter` asserts that the action is one of
the six filter actions (`AssertionError` otherwise); under the resulting
filter, `"error"` escalates `warnings.warn` into raising the warning category
and `"ignore"` suppresses delivery, while the remaining actions deliver the
warning.  With `action` equal to `None` or the empty string (both falsy), the
single `warnings.warn` call goes through the ambient filter; the model
records the warning handed to the warnings subsystem (ambient display
filtering happens outside the wrapper). -/
def ClassicAdapter.emitWarning (self : ClassicAdapter) (msg : String) :
    Except PyErr (List Event) :=
  match self.action with
  | none => .ok [.warned self.category msg]
  | some a =>
    if a = "" then .ok [.warned self.category msg]
    else if simplefilterActions.contains a = false then .error .assertionError
    else if a = "error" then .error (.warningRaised self.category msg)
    else if a = "ignore" then .ok []
    else .ok [.warned self.category msg]

/-- The wrapper body (classic.py lines 179-199) for a non-class wrapped
callable, invoked through the returned wrapt proxy with `instance = None`:
build the message, emit the warning, then delegate with `return
wrapped(*args, **kwargs)`.  The undecorated logic is modelled as
`f : α → Except PyErr β`; if emission raises, delegation never happens. -/
def ClassicAdapter.callFunction {α β : Type} (self : ClassicAdapter) (fname : String)
    (f : α → Except PyErr β) (x : α) : Outcome β :=
  match self.emitWarning (self.get_deprecated_msg false fname none) with
  | .error e => ⟨[], .error e⟩
  | .ok evs => ⟨evs ++ [.delegated], f x⟩

/-- The wrapper body (classic.py lines 179-199) for a wrapped class, invoked
through the returned wrapt proxy with `instance = None`: read the
`_deprecated_warning_issued` attribute; if it is `False`, build the message,
emit the warning, and set the attribute to `True`; then delegate to the class
construction.  The construction outcome (`deprecated_new`, which emits
nothing, then `object.__new__` and `__init__`) is the `construct` parameter.
Returns the new class state together with the call outcome.  If emission
raises, the flag is not set (line 190 runs after the warn) and delegation
never happens. -/
def ClassicAdapter.callClass (self : ClassicAdapter) (c : PyClass)
    (construct : Except PyErr Unit) : PyClass × Outcome Unit :=
  match c.deprecated_warning_issued with
  | none => (c, ⟨[], .error (.attributeError "_deprecated_warning_issued")⟩)
  | some true => (c, ⟨[.delegated], construct⟩)
  | some false =>
    match self.emitWarning (self.get_deprecated_msg true c.name none) with
    | .error e => (c, ⟨[], .error e⟩)
    | .ok evs =>
      ({ c with deprecated_warning_issued := some true }, ⟨evs ++ [.delegated], construct⟩)

/-- `deprecated_new` (classic.py lines 167-174), the classmethod installed as
the class's `__new__` at decoration time.  Its first statement `wrapper(cls,
None, args, kwargs)` calls the wrapt decorator held by the closure variable
`wrapper` (rebound to the second wrapper, lines 179-199) with four positional
arguments; a wrapt decorator called with positional arguments is a decorator
application, which uses only the first argument: it builds a new proxy around
`cls` and returns it without ever running the wrapper body, so no warning is
emitted and `deprecated_new` discards the returned proxy.  It then delegates
to the original `__new__` (lines 170-172). -/
def deprecated_new (_c : PyClass) : Outcome Unit :=
  ⟨[.delegated], .ok ()⟩

/-- The in-place class mutations performed at decoration time by
`ClassicAdapter.__call__` (classic.py lines 164-177): `wrapped.__new__ =
deprecated_new` and `wrapped._deprecated_warning_issued = False`, both on the
original class object. -/
def decorateClassInPlace (c : PyClass) : PyClass :=
  { c with newReplaced := true, deprecated_warning_issued := some false }

/-- A wrapped target: a function (with its `__name__`) or a class. -/
inductive Wrapped where
  | func (name : String)
  | cls (c : PyClass)
deriving DecidableEq

/-- The value returned by `ClassicAdapter.__call__`: a wrapt proxy carrying
the adapter and the wrapped target (for a class, the mutated original class).
Calling the proxy is modelled by `callFunction` and `callClass`. -/
inductive Decorated where
  | func (adapter : ClassicAdapter) (name : String)
  | cls (adapter : ClassicAdapter) (c : PyClass)
deriving DecidableEq

/-- `ClassicAdapter.__call__` (classic.py lines 140-201): for a class, first
perform the in-place mutations of lines 164-177, then return the wrapt proxy
over the (mutated) class; for a function, return the proxy over the function.
No code path raises. -/
def ClassicAdapter.call (self : ClassicAdapter) (w : Wrapped) : Decorated :=
  match w with
  | .func n => .func self n
  | .cls c => .cls self (decorateClassInPlace c)

/-- A positional argument to `deprecated`: a callable (function or class) or
a configuration string.  `callable(arg)` holds exactly for the first two. -/
inductive Arg where
  | func (name : String)
  | cls (c : PyClass)
  | str (s : String)
deriving DecidableEq

/-- The string value of a positional argument, when it is a string. -/
def Arg.asStr : Arg → Option String
  | .str s => some s
  | _ => none

/-- Keyword arguments to `deprecated` and `ClassicAdapter`. -/
structure Kw where
  reason : Option String
  version : Option String
  action : Option String
  category : Option String
deriving DecidableEq

/-- No keyword arguments. -/
def Kw.empty : Kw := ⟨none, none, none, none⟩

/-- `ClassicAdapter(*args, **kwargs)`: positional arguments bind in order to
the `(reason, version, action, category)` parameters of
`ClassicAdapter.__init__`; configuration values in the model are strings. -/
def ClassicAdapter.ofArgs (args : List Arg) (kw : Kw) : ClassicAdapter :=
  ClassicAdapter.init
    (((args.get? 0).bind Arg.asStr).orElse (fun _ => kw.reason))
    (((args.get? 1).bind Arg.asStr).orElse (fun _ => kw.version))
    (((args.get? 2).bind Arg.asStr).orElse (fun _ => kw.action))
    (((args.get? 3).bind Arg.asStr).orElse (fun _ => kw.category))

/-- The result of the top-level `deprecated(*args, **kwargs)`: either the
wrapped callable (bare form) or a configured adapter to be applied as a
decorator. -/
inductive DeprecatedResult where
  | wrapped (d : Decorated)
  | adapter (a : ClassicAdapter)
deriving DecidableEq

/-- The top-level `deprecated` function (classic.py lines 204-213): with
exactly one positional argument that is callable (`len(args) == 1 and
callable(args[0])`, true for a function or a class argument), return
`ClassicAdapter()(args[0])` — the all-default configuration, with the keyword
arguments unused; otherwise return `ClassicAdapter(*args, **kwargs)`. -/
def deprecated (args : List Arg) (kw : Kw) : DeprecatedResult :=
  match args with
  | [Arg.func n] => .wrapped (defaultAdapter.call (Wrapped.func n))
  | [Arg.cls c] => .wrapped (defaultAdapter.call (Wrapped.cls c))
  | _ => .adapter (ClassicAdapter.ofArgs args kw)

/-- `n` successive instantiations of a decorated class through the returned
proxy, with a construction that succeeds; returns the final class state and
the total number of warnings delivered. -/
def instantiateN (self : ClassicAdapter) : Nat → PyClass → PyClass × Nat
  | 0, c => (c, 0)
  | n + 1, c =>
    let r := self.callClass c (.ok ())
    let rest := instantiateN self n r.1
    (rest.1, countWarned r.2.trace + rest.2)

/-- The clause tail appended to the selected template by classic.py lines
132-135 (after field substitution): the reason clause when the reason is
non-empty, then the version clause when the version is non-empty. -/
def clauseTail (r v : String) : String :=
  (if r ≠ "" then " (" ++ (r ++ ")") else "")
    ++ (if v ≠ "" then " -- Deprecated since version " ++ (v ++ ".") else "")

/-! ## Helper lemmas -/

/-- Emission under an explicit `"error"` action raises the warning category. -/
lemma emitWarning_error (self : ClassicAdapter) (m : String)
    (ha : self.action = some "error") :
    self.emitWarning m = .error (.warningRaised self.category m) := by
  unfold ClassicAdapter.emitWarning
  rw [ha]
  rfl

/-- Emission under a non-empty action outside the six filter actions raises
`AssertionError` (from the assert in `warnings.simplefilter`). -/
lemma emitWarning_invalid (self : ClassicAdapter) (a m : String)
    (ha : self.action = some a) (hne : a ≠ "")
    (hmem : simplefilterActions.contains a = false) :
    self.emitWarning m = .error .assertionError := by
  unfold ClassicAdapter.emitWarning
  rw [ha]
  simp only [if_neg hne, if_pos hmem]

/-- A function call whose warning emission raises: no delegation. -/
lemma callFunction_emitError {α β : Type} (self : ClassicAdapter) (fname : String)
    (f : α → Except PyErr β) (x : α) (e : PyErr)
    (h : self.emitWarning (self.get_deprecated_msg false fname none) = .error e) :
    self.callFunction fname f x = ⟨[], .error e⟩ := by
  unfold ClassicAdapter.callFunction
  rw [h]

/-- A function call whose warning emission succeeds: warn then delegate. -/
lemma callFunction_emitOk {α β : Type} (self : ClassicAdapter) (fname : String)
    (f : α → Except PyErr β) (x : α) (evs : List Event)
    (h : self.emitWarning (self.get_deprecated_msg false fname none) = .ok evs) :
    self.callFunction fname f x = ⟨evs ++ [.delegated], f x⟩ := by
  unfold ClassicAdapter.callFunction
  rw [h]

/-- Instantiation with the flag already set: no warning, plain delegation. -/
lemma callClass_flagTrue (self : ClassicAdapter) (c : PyClass) (k : Except PyErr Unit)
    (h : c.deprecated_warning_issued = some true) :
    self.callClass c k = (c, ⟨[Event.delegated], k⟩) := by
  unfold ClassicAdapter.callClass
  rw [h]

/-- Instantiation with the flag `False` under the ambient filter: one warning
is delivered, the flag is set, and construction is delegated to. -/
lemma callClass_flagFalse (self : ClassicAdapter) (c : PyClass) (k : Except PyErr Unit)
    (hf : c.deprecated_warning_issued = some false) (ha : self.action = none) :
    self.callClass c k
      = ({ c with deprecated_warning_issued := some true },
         ⟨[Event.warned self.category (self.get_deprecated_msg true c.name none),
           Event.delegated], k⟩) := by
  unfold ClassicAdapter.callClass ClassicAdapter.emitWarning
  rw [hf, ha]
  rfl

/-- Instantiation with the flag `False` under an explicit `"error"` action:
the escalated warning aborts the call and the flag stays `False`. -/
lemma callClass_flagFalse_error (self : ClassicAdapter) (c : PyClass)
    (k : Except PyErr Unit) (hf : c.deprecated_warning_issued = some false)
    (ha : self.action = some "error") :
    self.callClass c k
      = (c, ⟨[], .error (.warningRaised self.category
          (self.get_deprecated_msg true c.name none))⟩) := by
  unfold ClassicAdapter.callClass
  rw [hf, emitWarning_error self _ ha]

/-- Unfolding lemma for one instantiation step. -/
lemma instantiateN_succ (self : ClassicAdapter) (n : Nat) (c : PyClass) :
    instantiateN self (n + 1) c
      = ((instantiateN self n (self.callClass c (.ok ())).1).1,
         countWarned (self.callClass c (.ok ())).2.trace
           + (instantiateN self n (self.callClass c (.ok ())).1).2) := rfl

/-- Once the flag is set, any number of further instantiations delivers no
warning and leaves the class unchanged. -/
lemma instantiateN_flagTrue (self : ClassicAdapter) :
    ∀ (n : Nat) (nm : String) (nr : Bool),
      instantiateN self n ⟨nm, some true, nr⟩ = (⟨nm, some true, nr⟩, 0) := by
  intro n
  induction n with
  | zero => intro nm nr; rfl
  | succ m ih =>
    intro nm nr
    rw [instantiateN_succ]
    have hc : self.callClass ⟨nm, some true, nr⟩ (.ok ())
        = (⟨nm, some true, nr⟩, ⟨[Event.delegated], .ok ()⟩) := rfl
    rw [hc, ih nm nr]
    rfl

/-- The message for a wrapped class with `instance = None` is the class
template with the name substituted, followed by the clause tail. -/
lemma msg_tail_class (r v n : String) (a : Option String) (cat : String) :
    (⟨r, v, a, cat⟩ : ClassicAdapter).get_deprecated_msg true n none
      = "Call to deprecated class " ++ (n ++ ("." ++ clauseTail r v)) := by
  unfold ClassicAdapter.get_deprecated_msg clauseTail
  by_cases hr : r = "" <;> by_cases hv : v = ""
  · subst hr; subst hv; rfl
  · subst hr; simp only [if_pos hv]; rfl
  · subst hv; simp only [if_pos hr, String.append_assoc]; rfl
  · simp only [if_pos hr, if_pos hv, String.append_assoc]; rfl

/-- The message for a wrapped non-class with `instance = None` is the
function template with the name substituted, followed by the clause tail. -/
lemma msg_tail_func (r v n : String) (a : Option String) (cat : String) :
    (⟨r, v, a, cat⟩ : ClassicAdapter).get_deprecated_msg false n none
      = "Call to deprecated function (or staticmethod) "
          ++ (n ++ ("." ++ clauseTail r v)) := by
  unfold ClassicAdapter.get_deprecated_msg clauseTail
  by_cases hr : r = "" <;> by_cases hv : v = ""
  · subst hr; subst hv; rfl
  · subst hr; simp only [if_pos hv]; rfl
  · subst hv; simp only [if_pos hr, String.append_assoc]; rfl
  · simp only [if_pos hr, if_pos hv, String.append_assoc]; rfl

/-- The message for a call bound to a class instance (a classmethod-style
call) is the class-method template, for any wrapped kind. -/
lemma msg_tail_clsmethod (r v n : String) (a : Option String) (cat : String)
    (isCls : Bool) :
    (⟨r, v, a, cat⟩ : ClassicAdapter).get_deprecated_msg isCls n (some true)
      = "Call to deprecated class method " ++ (n ++ ("." ++ clauseTail r v)) := by
  unfold ClassicAdapter.get_deprecated_msg clauseTail
  by_cases hr : r = "" <;> by_cases hv : v = ""
  · subst hr; subst hv; rfl
  · subst hr; simp only [if_pos hv]; rfl
  · subst hv; simp only [if_pos hr, String.append_assoc]; rfl
  · simp only [if_pos hr, if_pos hv, String.append_assoc]; rfl

/-- The message for a call bound to a plain object instance (a bound-method
call) is the method template, for any wrapped kind. -/
lemma msg_tail_method (r v n : String) (a : Option String) (cat : String)
    (isCls : Bool) :
    (⟨r, v, a, cat⟩ : ClassicAdapter).get_deprecated_msg isCls n (some false)
      = "Call to deprecated method " ++ (n ++ ("." ++ clauseTail r v)) := by
  unfold ClassicAdapter.get_deprecated_msg clauseTail
  by_cases hr : r = "" <;> by_cases hv : v = ""
  · subst hr; subst hv; rfl
  · subst hr; simp only [if_pos hv]; rfl
  · subst hv; simp only [if_pos hr, String.append_assoc]; rfl
  · simp only [if_pos hr, if_pos hv, String.append_assoc]; rfl

/-! ## Claims -/

/-- C1: for every function decorated in bare form (`deprecated` applied
directly to the function), the result wraps the function with the
all-default adapter, and every call of the wrapper delivers exactly one
warning and returns exactly what the undecorated function returns on the
same argument (including a raised exception). -/
theorem claim_C1_bare_function {α β : Type} (fname : String)
    (f : α → Except PyErr β) (x : α) :
    deprecated [Arg.func fname] Kw.empty
      = DeprecatedResult.wrapped (Decorated.func defaultAdapter fname) ∧
    countWarned (defaultAdapter.callFunction fname f x).trace = 1 ∧
    (defaultAdapter.callFunction fname f x).result = f x :=
  ⟨rfl, rfl, rfl⟩

/-- C2: for a decorated class called through the returned wrapper with the
ambient warning filter (`action = None`), the first instantiation delivers
exactly one warning and sets the `_deprecated_warning_issued` flag on the
class, and any number `n ≥ 1` of successive instantiations delivers exactly
one warning in total — the warning fires at most once per class. -/
theorem claim_C2_class_warns_once (self : ClassicAdapter) (c : PyClass) (n : Nat)
    (ha : self.action = none) (hn : 1 ≤ n) :
    countWarned (self.callClass (decorateClassInPlace c) (.ok ())).2.trace = 1 ∧
    (self.callClass (decorateClassInPlace c) (.ok ())).1.deprecated_warning_issued
      = some true ∧
    (instantiateN self n (decorateClassInPlace c)).2 = 1 := by
  have h1 := callClass_flagFalse self (decorateClassInPlace c) (.ok ()) rfl ha
  refine ⟨by rw [h1]; rfl, by rw [h1], ?_⟩
  obtain ⟨m, rfl⟩ : ∃ m, n = m + 1 := ⟨n - 1, by omega⟩
  rw [instantiateN_succ, h1]
  rw [instantiateN_flagTrue self m]
  rfl

/-- C2 witness: a concrete class instantiated three times delivers exactly
one warning. -/
theorem claim_C2_witness :
    countWarned (defaultAdapter.callClass
        (decorateClassInPlace ⟨"Old", none, false⟩) (.ok ())).2.trace = 1 ∧
    (defaultAdapter.callClass (decorateClassInPlace ⟨"Old", none, false⟩)
        (.ok ())).1.deprecated_warning_issued = some true ∧
    (instantiateN defaultAdapter 3 (decorateClassInPlace ⟨"Old", none, false⟩)).2 = 1 :=
  claim_C2_class_warns_once defaultAdapter ⟨"Old", none, false⟩ 3 rfl (by decide)

/-- C3: the message template is selected by four mutually exclusive cases
evaluated in order — instance `None` and a class gives the class template,
instance `None` and a non-class gives the function template, a class
instance gives the class-method template, and any other instance gives the
method template — with the wrapped name substituted for the name field and
the configured clause tail appended. -/
theorem claim_C3_template_selection (r v n : String) (a : Option String)
    (cat : String) (isCls : Bool) :
    (⟨r, v, a, cat⟩ : ClassicAdapter).get_deprecated_msg true n none
      = "Call to deprecated class " ++ (n ++ ("." ++ clauseTail r v)) ∧
    (⟨r, v, a, cat⟩ : ClassicAdapter).get_deprecated_msg false n none
      = "Call to deprecated function (or staticmethod) "
          ++ (n ++ ("." ++ clauseTail r v)) ∧
    (⟨r, v, a, cat⟩ : ClassicAdapter).get_deprecated_msg isCls n (some true)
      = "Call to deprecated class method " ++ (n ++ ("." ++ clauseTail r v)) ∧
    (⟨r, v, a, cat⟩ : ClassicAdapter).get_deprecated_msg isCls n (some false)
      = "Call to deprecated method " ++ (n ++ ("." ++ clauseTail r v)) :=
  ⟨msg_tail_class r v n a cat, msg_tail_func r v n a cat,
   msg_tail_clsmethod r v n a cat isCls, msg_tail_method r v n a cat isCls⟩

/-- C4: with the function template, supplying both reason and version yields
the full message; omitting either omits exactly the corresponding clause;
omitting both leaves the bare template; and the constructor defaults reason
and version to the empty string (never null). -/
theorem claim_C4_message_shape (r v n : String) (a : Option String) (cat : String) :
    (r ≠ "" → v ≠ "" →
      (⟨r, v, a, cat⟩ : ClassicAdapter).get_deprecated_msg false n none
        = "Call to deprecated function (or staticmethod) "
            ++ (n ++ (". (" ++ (r ++ (") -- Deprecated since version "
            ++ (v ++ ".")))))) ∧
    (r ≠ "" → v = "" →
      (⟨r, v, a, cat⟩ : ClassicAdapter).get_deprecated_msg false n none
        = "Call to deprecated function (or staticmethod) "
            ++ (n ++ (". (" ++ (r ++ ")")))) ∧
    (r = "" → v ≠ "" →
      (⟨r, v, a, cat⟩ : ClassicAdapter).get_deprecated_msg false n none
        = "Call to deprecated function (or staticmethod) "
            ++ (n ++ (". -- Deprecated since version " ++ (v ++ ".")))) ∧
    (r = "" → v = "" →
      (⟨r, v, a, cat⟩ : ClassicAdapter).get_deprecated_msg false n none
        = "Call to deprecated function (or staticmethod) " ++ (n ++ ".")) ∧
    (ClassicAdapter.init none none a (some cat)).reason = "" ∧
    (ClassicAdapter.init none none a (some cat)).version = "" := by
  refine ⟨?_, ?_, ?_, ?_, rfl, rfl⟩
  · intro hr hv
    unfold ClassicAdapter.get_deprecated_msg
    simp only [ne_eq]
    rw [if_pos hv, if_pos hr]
    rfl
  · intro hr hv
    subst hv
    unfold ClassicAdapter.get_deprecated_msg
    simp only [ne_eq]
    rw [if_pos hr]
    rfl
  · intro hr hv
    subst hr
    unfold ClassicAdapter.get_deprecated_msg
    simp only [ne_eq]
    rw [if_pos hv]
    rfl
  · intro hr hv
    subst hr
    subst hv
    rfl

/-- C4 witness: the scenario from the specification, with both reason and
version supplied. -/
theorem claim_C4_witness :
    (⟨"use new_api", "2.0", none, "DeprecationWarning"⟩ :
        ClassicAdapter).get_deprecated_msg false "old_api" none
      = "Call to deprecated function (or staticmethod) old_api. (use new_api) -- Deprecated since version 2.0." :=
  (claim_C4_message_shape "use new_api" "2.0" "old_api" none
      "DeprecationWarning").1 (by decide) (by decide)

/-- C5 is false of the code: `get_deprecated_msg` performs no rewriting of
cross-reference markup, so a reason of `:func:` followed by a quoted target
appears in the message verbatim, with the documentation-role prefix still
present rather than removed. -/
theorem claim_C5_counterexample :
    (⟨":func:`other_func`", "", none, "DeprecationWarning"⟩ :
        ClassicAdapter).get_deprecated_msg false "foo" none
      = "Call to deprecated function (or staticmethod) foo. (:func:`other_func`)" ∧
    List.IsInfix ":func:".data
      ((⟨":func:`other_func`", "", none, "DeprecationWarning"⟩ :
        ClassicAdapter).get_deprecated_msg false "foo" none).data :=
  ⟨rfl, by decide⟩

/-- C5 (amended): the reason text is inserted into the emitted message
verbatim; no cleaning of cross-reference markup happens in the classic
adapter, so any role prefix in the reason survives unchanged. -/
theorem claim_C5_reason_verbatim (r n : String) (a : Option String) (cat : String)
    (hr : r ≠ "") :
    (⟨r, "", a, cat⟩ : ClassicAdapter).get_deprecated_msg false n none
      = "Call to deprecated function (or staticmethod) "
          ++ (n ++ (". (" ++ (r ++ ")"))) := by
  unfold ClassicAdapter.get_deprecated_msg
  simp only [ne_eq]
  rw [if_pos hr]
  rfl

/-- C5 witness: the specification's own example reason, inserted verbatim. -/
theorem claim_C5_witness :
    (⟨":func:`other_func`", "", none, "DeprecationWarning"⟩ :
        ClassicAdapter).get_deprecated_msg false "foo" none
      = "Call to deprecated function (or staticmethod) foo. (:func:`other_func`)" :=
  claim_C5_reason_verbatim ":func:`other_func`" "foo" none "DeprecationWarning"
    (by decide)

/-- C6: with `action = "error"`, calling a decorated function raises the
warning category instead of returning, with no delegation event, so the
wrapped logic is never executed; likewise an instantiation of a decorated
class (whose flag is still `False`, as it is after decoration and stays,
since the flag assignment follows the raising warn) raises before
delegation and leaves the class state unchanged. -/
theorem claim_C6_action_error {α β : Type} (self : ClassicAdapter) (fname : String)
    (f : α → Except PyErr β) (x : α) (c : PyClass) (k : Except PyErr Unit)
    (ha : self.action = some "error") (hc : c.deprecated_warning_issued = some false) :
    (self.callFunction fname f x).result
      = .error (.warningRaised self.category
          (self.get_deprecated_msg false fname none)) ∧
    Event.delegated ∉ (self.callFunction fname f x).trace ∧
    (self.callClass c k).2.result
      = .error (.warningRaised self.category
          (self.get_deprecated_msg true c.name none)) ∧
    Event.delegated ∉ (self.callClass c k).2.trace ∧
    (self.callClass c k).1 = c := by
  have hf := callFunction_emitError self fname f x
    (.warningRaised self.category (self.get_deprecated_msg false fname none))
    (emitWarning_error self _ ha)
  have hcl := callClass_flagFalse_error self c k hc ha
  rw [hf, hcl]
  exact ⟨rfl, by simp, rfl, by simp, rfl⟩

/-- C6 witness: a concrete escalating adapter on a function and a class. -/
theorem claim_C6_witness :
    ((⟨"", "", some "error", "DeprecationWarning"⟩ : ClassicAdapter).callFunction "f"
        (fun _ : Unit => (Except.ok 0 : Except PyErr Nat)) ()).result
      = .error (.warningRaised "DeprecationWarning"
          "Call to deprecated function (or staticmethod) f.") ∧
    Event.delegated ∉ ((⟨"", "", some "error", "DeprecationWarning"⟩ :
        ClassicAdapter).callFunction "f"
        (fun _ : Unit => (Except.ok 0 : Except PyErr Nat)) ()).trace ∧
    ((⟨"", "", some "error", "DeprecationWarning"⟩ : ClassicAdapter).callClass
        ⟨"Old", some false, true⟩ (.ok ())).2.result
      = .error (.warningRaised "DeprecationWarning" "Call to deprecated class Old.") ∧
    Event.delegated ∉ ((⟨"", "", some "error", "DeprecationWarning"⟩ :
        ClassicAdapter).callClass ⟨"Old", some false, true⟩ (.ok ())).2.trace ∧
    ((⟨"", "", some "error", "DeprecationWarning"⟩ : ClassicAdapter).callClass
        ⟨"Old", some false, true⟩ (.ok ())).1 = ⟨"Old", some false, true⟩ :=
  claim_C6_action_error (⟨"", "", some "error", "DeprecationWarning"⟩ : ClassicAdapter)
    "f" (fun _ : Unit => (Except.ok 0 : Except PyErr Nat)) ()
    ⟨"Old", some false, true⟩ (.ok ()) rfl rfl

/-- C7 is false of the code: with the invalid action value `"bogus"`,
decoration completes normally — `ClassicAdapter.__init__` stores the action
unchecked and `ClassicAdapter.__call__` raises on no code path — and the
failure (the `AssertionError` from `warnings.simplefilter`) only happens
when the decorated function is called. -/
theorem claim_C7_counterexample :
    deprecated [] ⟨none, none, some "bogus", none⟩
      = DeprecatedResult.adapter ⟨"", "", some "bogus", "DeprecationWarning"⟩ ∧
    (⟨"", "", some "bogus", "DeprecationWarning"⟩ : ClassicAdapter).call
        (Wrapped.func "f")
      = Decorated.func ⟨"", "", some "bogus", "DeprecationWarning"⟩ "f" ∧
    ((⟨"", "", some "bogus", "DeprecationWarning"⟩ : ClassicAdapter).callFunction "f"
        (fun _ : Unit => (Except.ok 0 : Except PyErr Nat)) ())
      = ⟨[], .error .assertionError⟩ :=
  ⟨rfl, rfl, rfl⟩

/-- C7 (amended): a non-empty action value outside the enumerated set is not
validated at decoration time — building the adapter and applying it both
complete normally — and every call of the decorated function fails with
`AssertionError` before any delegation. -/
theorem claim_C7_invalid_action_call_time {α β : Type} (a fname : String)
    (f : α → Except PyErr β) (x : α) (r v cat : Option String)
    (hne : a ≠ "") (hmem : simplefilterActions.contains a = false) :
    deprecated [] ⟨r, v, some a, cat⟩
      = DeprecatedResult.adapter (ClassicAdapter.init r v (some a) cat) ∧
    (ClassicAdapter.init r v (some a) cat).call (Wrapped.func fname)
      = Decorated.func (ClassicAdapter.init r v (some a) cat) fname ∧
    ((ClassicAdapter.init r v (some a) cat).callFunction fname f x).result
      = .error .assertionError ∧
    Event.delegated ∉
      ((ClassicAdapter.init r v (some a) cat).callFunction fname f x).trace := by
  have hf := callFunction_emitError (ClassicAdapter.init r v (some a) cat) fname f x
    .assertionError
    (emitWarning_invalid (ClassicAdapter.init r v (some a) cat) a _ rfl hne hmem)
  rw [hf]
  exact ⟨rfl, rfl, rfl, by simp⟩

/-- C7 witness: the amended claim at the concrete action `"bogus"`. -/
theorem claim_C7_witness :
    deprecated [] ⟨some "why", none, some "bogus", none⟩
      = DeprecatedResult.adapter
          (ClassicAdapter.init (some "why") none (some "bogus") none) ∧
    (ClassicAdapter.init (some "why") none (some "bogus") none).call (Wrapped.func "g")
      = Decorated.func (ClassicAdapter.init (some "why") none (some "bogus") none) "g" ∧
    ((ClassicAdapter.init (some "why") none (some "bogus") none).callFunction "g"
        (fun _ : Unit => (Except.ok 7 : Except PyErr Nat)) ()).result
      = .error .assertionError ∧
    Event.delegated ∉
      ((ClassicAdapter.init (some "why") none (some "bogus") none).callFunction "g"
        (fun _ : Unit => (Except.ok 7 : Except PyErr Nat)) ()).trace :=
  claim_C7_invalid_action_call_time "bogus" "g"
    (fun _ : Unit => (Except.ok 7 : Except PyErr Nat)) ()
    (some "why") none none (by decide) (by decide)

/-- C8: whenever warning emission succeeds, the warning events strictly
precede the delegation event in the trace, and an exception raised by the
wrapped logic is the call's result, unchanged — neither swallowed nor
wrapped. -/
theorem claim_C8_error_passthrough {α β : Type} (self : ClassicAdapter)
    (fname : String) (f : α → Except PyErr β) (x : α) (evs : List Event) (e : PyErr)
    (hw : self.emitWarning (self.get_deprecated_msg false fname none) = .ok evs)
    (hf : f x = .error e) :
    (self.callFunction fname f x).trace = evs ++ [Event.delegated] ∧
    (self.callFunction fname f x).result = .error e := by
  rw [callFunction_emitOk self fname f x evs hw]
  exact ⟨rfl, hf⟩

/-- C8 witness: a bare-decorated function that raises. -/
theorem claim_C8_witness :
    (defaultAdapter.callFunction "f"
        (fun _ : Unit => (Except.error (PyErr.userError "boom") : Except PyErr Nat))
        ()).trace
      = [Event.warned "DeprecationWarning"
          "Call to deprecated function (or staticmethod) f.", Event.delegated] ∧
    (defaultAdapter.callFunction "f"
        (fun _ : Unit => (Except.error (PyErr.userError "boom") : Except PyErr Nat))
        ()).result
      = .error (PyErr.userError "boom") :=
  claim_C8_error_passthrough defaultAdapter "f"
    (fun _ : Unit => (Except.error (PyErr.userError "boom") : Except PyErr Nat)) ()
    [Event.warned "DeprecationWarning"
      "Call to deprecated function (or staticmethod) f."]
    (PyErr.userError "boom") rfl rfl

/-- C9 is false of the code as stated: the classmethod installed as the
class's `__new__` emits no warning when invoked — its `wrapper(cls, None,
args, kwargs)` statement is a wrapt decorator application that builds and
discards a proxy without running the wrapper body. -/
theorem claim_C9_counterexample :
    countWarned (deprecated_new (decorateClassInPlace ⟨"Old", none, false⟩)).trace = 0 :=
  rfl

/-- C9 (amended): applying the decorator to a class mutates the original
class object in place at decoration time — it sets the class attribute
`_deprecated_warning_issued` to `False` and replaces the class's `__new__`
with the `deprecated_new` classmethod, and the returned wrapper carries that
same mutated class — but the installed classmethod itself emits no warning
when invoked (the instantiation warning comes from the returned wrapper,
gated by the flag). -/
theorem claim_C9_decoration_mutates_class (self : ClassicAdapter) (c : PyClass) :
    self.call (Wrapped.cls c) = Decorated.cls self (decorateClassInPlace c) ∧
    (decorateClassInPlace c).deprecated_warning_issued = some false ∧
    (decorateClassInPlace c).newReplaced = true ∧
    (decorateClassInPlace c).name = c.name ∧
    countWarned (deprecated_new (decorateClassInPlace c)).trace = 0 :=
  ⟨rfl, rfl, rfl, rfl, rfl⟩

/-- C10: called with exactly one positional argument that is callable (a
function or a class), `deprecated` ignores all keyword arguments — the
result equals the bare form — and wraps the callable with the all-default
configuration (empty reason and version, no action override). -/
theorem claim_C10_single_callable_ignores_kwargs (fname : String) (c : PyClass)
    (kw : Kw) :
    deprecated [Arg.func fname] kw = deprecated [Arg.func fname] Kw.empty ∧
    deprecated [Arg.func fname] kw
      = DeprecatedResult.wrapped (Decorated.func defaultAdapter fname) ∧
    deprecated [Arg.cls c] kw = deprecated [Arg.cls c] Kw.empty ∧
    deprecated [Arg.cls c] kw
      = DeprecatedResult.wrapped (Decorated.cls defaultAdapter (decorateClassInPlace c)) ∧
    defaultAdapter.reason = "" ∧ defaultAdapter.version = "" ∧
    defaultAdapter.action = none :=
  ⟨rfl, rfl, rfl, rfl, rfl, rfl, rfl⟩

end DeprecatedClassic
